import Mathlib

/-!
Verification of the Odin search-agent repository (src/advanced_search_agent.py,
src/search_agent.py) against its natural-language specification.

The two Python files contain one pipeline each (`AdvancedSearchAgent.search_and_summarize`
and `DeepSearchAgent.search_and_summarize`).  The pipeline stages shared verbatim by the
two files (result-text extraction, the blog/language transformation step) are embedded
once.  External collaborators (the browser agent, the LLM completion service, the clock,
the filesystem) are modelled as explicit inputs: the agent as a function from the task
string to a duck-typed result object, the LLM as a function from prompt to response
content, clock readings as integers, the filesystem as an association list from path to
written content.
-/

/-! ### Duck-typed result objects (advanced_search_agent.py lines 94-107,
search_agent.py lines 50-63; the two blocks are character-for-character identical).

A Python attribute access in this code has three relevant outcomes, modelled by
`Access`: the attribute is missing or its access raises `AttributeError`
(`hasattr` is then false) -- `absent`; the access raises some other exception,
which `hasattr` and plain attribute access both propagate -- `raises`; the
access yields a value -- `val`. -/

inductive Access (α : Type) where
  | absent : Access α
  | raises : Access α
  | val : α → Access α
deriving DecidableEq

/-- An element of a result object's `messages` list; `content` is the attribute read
by `result.messages[-1].content`. -/
structure AgentMessage where
  content : Access String
deriving DecidableEq

/-- The duck-typed object returned by `agent.run()`: the three attribute probes the
source performs (`.text`, `__str__`, `.messages`). -/
structure ResultObj where
  text : Access String
  strConv : Access String
  messages : Access (List AgentMessage)
deriving DecidableEq

/-- The fixed fallback string of both files (lines 105/107 and 61/63). -/
def fallbackText : String := "Could not extract text from search results."

/-- Lines 94-107 of advanced_search_agent.py (= lines 50-63 of search_agent.py).
`Except.error ()` models an exception propagating out of the block: only the
message-list branch is inside the `try`/bare-`except`; the `.text` and `str(result)`
branches are unguarded, so a non-AttributeError exception there escapes.  Inside the
`try`, every exception (a raising `messages` access, a raising or missing `content`
on the last message) is caught and replaced by the fallback; an empty `messages`
list is falsy and also yields the fallback. -/
def extractResultText (result : ResultObj) : Except Unit String :=
  match result.text with
  | Access.val t => Except.ok t
  | Access.raises => Except.error ()
  | Access.absent =>
    match result.strConv with
    | Access.val s => Except.ok s
    | Access.raises => Except.error ()
    | Access.absent =>
      Except.ok (match result.messages with
        | Access.val ms =>
          match ms.getLast? with
          | some m =>
            match m.content with
            | Access.val c => c
            | _ => fallbackText
          | none => fallbackText
        | _ => fallbackText)

/-! ### Options records (advanced_search_agent.py lines 39-53). -/

/-- The caller-supplied partial options dict: a field is `none` when the key is not
passed, in which case `\x7b**default_options, **options\x7d` keeps the default. -/
structure OptionsIn where
  depth : Option Int
  output_format : Option String
  output_dir : Option String
  max_results : Option Int
  focus_areas : Option (List String)
  language : Option String
  blog_style : Option Bool
deriving DecidableEq

/-- A fully-populated options record, the shape of the merged dict. -/
structure Options where
  depth : Int
  output_format : String
  output_dir : String
  max_results : Int
  focus_areas : List String
  language : String
  blog_style : Bool
deriving DecidableEq

/-- Lines 40-48: the `default_options` dict. -/
def default_options : Options :=
  { depth := 2, output_format := "markdown", output_dir := ".", max_results := 10,
    focus_areas := [], language := "english", blog_style := false }

/-- Lines 50-53: `options = \x7b**default_options, **options\x7d` (with `options = \x7b\x7d`
when the caller passed none). -/
def mergeOptions (options : OptionsIn) : Options :=
  { depth := options.depth.getD default_options.depth,
    output_format := options.output_format.getD default_options.output_format,
    output_dir := options.output_dir.getD default_options.output_dir,
    max_results := options.max_results.getD default_options.max_results,
    focus_areas := options.focus_areas.getD default_options.focus_areas,
    language := options.language.getD default_options.language,
    blog_style := options.blog_style.getD default_options.blog_style }

/-- The all-`none` caller options (calling `search_and_summarize` with `options=None`). -/
def emptyOptions : OptionsIn := ⟨none, none, none, none, none, none, none⟩

/-! ### Task description builders. -/

/-- Line 64: the `depth_desc` dict of the advanced variant; `none` models a `KeyError`
on a key outside 1..3 (never reached, the index is always clamped first). -/
def depth_desc (d : Int) : Option String :=
  if d = 1 then some "briefly"
  else if d = 2 then some "thoroughly"
  else if d = 3 then some "exhaustively"
  else none

/-- Line 65: `depth_level = min(max(options["depth"], 1), 3)`. -/
def clampDepth (d : Int) : Int := min (max d 1) 3

/-- Lines 68-70: the optional focus-areas clause. -/
def focusStr (focus_areas : List String) : String :=
  if focus_areas ≠ [] then
    " Focus especially on: " ++ String.intercalate ", " focus_areas ++ "."
  else ""

/-- Lines 64-77 of advanced_search_agent.py: the task f-string of the multi-keyword
variant. -/
def buildTaskAdv (o : Options) (keyword : String) : String :=
  let depth_level := clampDepth o.depth
  "Search " ++ (depth_desc depth_level).getD "" ++ " for information about '"
    ++ keyword
    ++ "'. Find detailed facts, comparisons, and recent developments."
    ++ " Create a comprehensive summary with key points organized by subtopics."
    ++ " Include up to " ++ toString o.max_results ++ " most relevant findings."
    ++ focusStr o.focus_areas

/-- Line 35 of search_agent.py: `depth_desc = "thoroughly" if depth >= 2 else "briefly"`.
The single-keyword variant has no "exhaustively" adverb at all. -/
def simple_depth_desc (depth : Int) : String :=
  if depth ≥ 2 then "thoroughly" else "briefly"

/-- Line 36 of search_agent.py: the task f-string of the single-keyword variant. -/
def buildTaskSimple (depth : Int) (keywords : String) : String :=
  "Search " ++ simple_depth_desc depth ++ " for information about '"
    ++ keywords
    ++ "'. Find detailed facts, comparisons, and recent developments."
    ++ " Create a comprehensive summary with key points organized by subtopics."

/-! ### Optional transformation step (advanced_search_agent.py lines 109-133,
search_agent.py lines 65-89; identical up to the indentation inside the
triple-quoted prompt).  The LLM completion service is modelled as a function
from the prompt to the response content. -/

/-- Python `str.lower` on the ASCII strings at play: character-wise lowercasing
(the character-map form of `String.toLower`, reducible in the kernel). -/
def strLower (s : String) : String := String.mk (s.data.map Char.toLower)

/-- Line 110 (= line 66): `options["blog_style"] or options["language"].lower() != "english"`. -/
def transformNeeded (blog_style : Bool) (language : String) : Bool :=
  blog_style || (strLower language != "english")

/-- Lines 114-129: the transformation prompt of the advanced variant (a triple-quoted
f-string; the 16-space indentation of its lines is part of the string). -/
def blogPrompt (language result_text : String) : String :=
  let language_str := strLower language
  "\n                Transform the following research summary into a well-written, engaging "
    ++ language_str
    ++ " blog article.\n                \n                The article should:\n                1. Have an engaging title and introduction\n                2. Use a conversational, yet informative tone\n                3. Include section headings where appropriate\n                4. Maintain all the factual information from the original\n                5. Conclude with some thoughtful insights\n                6. Be written entirely in "
    ++ language_str
    ++ "\n                \n                Here is the research summary to transform:\n                \n                "
    ++ result_text
    ++ "\n                "

/-- The outcome of the transformation step: the working text afterwards, and the list
of prompts sent to the LLM completion service during the step (the effect log of
`self.llm.invoke`). -/
structure TransformResult where
  text : String
  llmCalls : List String
deriving DecidableEq

/-- Lines 109-133: when the condition of line 110 holds, one blocking `llm.invoke`
call replaces the working text with the response content; otherwise the text passes
through untouched and no call is made. -/
def transformStep (blog_style : Bool) (language : String) (llm : String → String)
    (result_text : String) : TransformResult :=
  if transformNeeded blog_style language then
    let p := blogPrompt language result_text
    { text := llm p, llmCalls := [p] }
  else
    { text := result_text, llmCalls := [] }

/-! ### Timestamps and filenames (advanced_search_agent.py lines 138-144 and 159-162,
search_agent.py lines 91-95). -/

/-- A wall-clock reading, the fields `strftime` reads.  Valid `datetime` values have
year 1-9999, month 1-12 etc., so each field fits the zero-padded width used below. -/
structure DateTime where
  year : Nat
  month : Nat
  day : Nat
  hour : Nat
  minute : Nat
  second : Nat
deriving DecidableEq

/-- Two-digit zero-padded decimal rendering, as `strftime` does for `%m %d %H %M %S`
on the 0-99 values a `datetime` can hold. -/
def pad2 (n : Nat) : String := String.mk [Nat.digitChar (n / 10 % 10), Nat.digitChar (n % 10)]

/-- Four-digit zero-padded decimal rendering, as `strftime` does for `%Y` on the
1-9999 years a `datetime` can hold. -/
def pad4 (n : Nat) : String :=
  String.mk [Nat.digitChar (n / 1000 % 10), Nat.digitChar (n / 100 % 10),
    Nat.digitChar (n / 10 % 10), Nat.digitChar (n % 10)]

/-- Line 139 (= line 93): `datetime.now().strftime("%Y%m%d_%H%M%S")`. -/
def timestampCompact (t : DateTime) : String :=
  pad4 t.year ++ pad2 t.month ++ pad2 t.day ++ "_"
    ++ pad2 t.hour ++ pad2 t.minute ++ pad2 t.second

/-- The per-character effect of line 140 (= line 94),
`keyword.replace(" ", "_").replace("/", "_").replace("\\", "_")`: each pattern is a
single character and the replacement `_` is none of the three patterns, so the chain
of replaces is the character map below. -/
def sanitizeChar (c : Char) : Char :=
  if c = ' ' ∨ c = '/' ∨ c = '\\' then '_' else c

/-- Line 140 (= line 94): `safe_keyword`. -/
def sanitizeKeyword (keyword : String) : String :=
  String.mk (keyword.data.map sanitizeChar)

/-- The extension choice of lines 143-161: the `json` branch hard-codes `.json`;
the `else` branch sets `ext = "md" if options["output_format"] == "markdown" else "txt"`. -/
def extForFormat (output_format : String) : String :=
  if output_format = "json" then "json"
  else if output_format = "markdown" then "md"
  else "txt"

/-- The basename built at lines 144/162: `f"\x7bsafe_keyword\x7d_\x7btimestamp\x7d.\x7bext\x7d"`. -/
def deriveFilenameAdv (keyword : String) (stamp : DateTime) (output_format : String) : String :=
  sanitizeKeyword keyword ++ "_" ++ timestampCompact stamp ++ "." ++ extForFormat output_format

/-- Line 95 of search_agent.py: the single-keyword variant always derives
`f"\x7bsafe_keywords\x7d_\x7btimestamp\x7d.md"` when no output file is supplied. -/
def deriveFilenameSimple (keywords : String) (stamp : DateTime) : String :=
  sanitizeKeyword keywords ++ "_" ++ timestampCompact stamp ++ ".md"

/-- `os.path.join(dir, name)` for the relative `name` built above: the separator is
inserted unless `dir` is empty or already ends with a slash (the trailing-slash
check is written on the character list, the kernel-reducible form of
`String.endsWith "/"`). -/
def joinPath (dir name : String) : String :=
  if dir = "" then name
  else if dir.data.getLast? = some '/' then dir ++ name
  else dir ++ "/" ++ name

/-! ### The JSON document written in the json branch (advanced_search_agent.py
lines 143-158).  `json.dump`/`json.load` are Python stdlib: for the
string/int/float/bool/list/dict values used here they transport the document
faithfully, so the file is modelled as holding the document itself. -/

/-- JSON values, covering the shapes serialized at lines 146-157.  Numbers are
modelled as integers (the float `duration_seconds` plays no role in any claim, and
the integer fields `depth` and `max_results` are exact). -/
inductive JVal where
  | jstr : String → JVal
  | jnum : Int → JVal
  | jbool : Bool → JVal
  | jarr : List JVal → JVal
  | jobj : List (String × JVal) → JVal

/-- Key lookup in a JSON object, `loaded[key]` on the parsed dict (the keys written
at lines 146-157 are pairwise distinct). -/
def jGetField (j : JVal) (key : String) : Option JVal :=
  match j with
  | JVal.jobj fields => (fields.find? (fun p => p.1 == key)).map (fun p => p.2)
  | _ => none

/-- Lines 146-157: the `json_data` dict.  `isoStamp` is the
`datetime.now().isoformat()` string of line 148. -/
def jsonData (keyword isoStamp summary : String) (depth : Int) (focus_areas : List String)
    (duration : Int) (language : String) (blog_style : Bool) : JVal :=
  JVal.jobj [
    ("keyword", JVal.jstr keyword),
    ("timestamp", JVal.jstr isoStamp),
    ("summary", JVal.jstr summary),
    ("metadata", JVal.jobj [
      ("depth", JVal.jnum depth),
      ("focus_areas", JVal.jarr (focus_areas.map JVal.jstr)),
      ("duration_seconds", JVal.jnum duration),
      ("language", JVal.jstr language),
      ("blog_style", JVal.jbool blog_style)])]

/-- What a written output file holds: the JSON document of the json branch, or the
plain text of the markdown/txt branch. -/
inductive FileContent where
  | jsonDoc : JVal → FileContent
  | textDoc : String → FileContent

/-- Python dict assignment `d[k] = v` on an association list: an existing key is
updated in place, a new key is appended (insertion order preserved).  Also models
opening a path with mode `"w"`, which overwrites. -/
def dictInsert {α : Type} : List (String × α) → String → α → List (String × α)
  | [], k, v => [(k, v)]
  | p :: rest, k, v => if p.1 == k then (k, v) :: rest else p :: dictInsert rest k v

/-- Reading a key back: `d[k]`, or reading the file stored at a path. -/
def fsRead {α : Type} (d : List (String × α)) (k : String) : Option α :=
  (d.find? (fun p => p.1 == k)).map (fun p => p.2)

/-- Lines 164-179: the content written in the markdown/txt branch -- an optional
header (suppressed for blog-style output), then the working text.  `headerStamp` is
the `datetime.now().strftime("%Y-%m-%d %H:%M:%S")` string of lines 169/175. -/
def renderTextFile (output_format : String) (blog_style : Bool) (keyword headerStamp : String)
    (focus_areas : List String) (body : String) : String :=
  if output_format = "markdown" then
    (if blog_style then "" else
      "# Summary: " ++ keyword ++ "\n\n"
        ++ "*Generated on: " ++ headerStamp ++ "*\n\n"
        ++ (if focus_areas ≠ [] then
              "**Focus Areas:** " ++ String.intercalate ", " focus_areas ++ "\n\n"
            else ""))
      ++ body
  else
    (if blog_style then "" else
      "SUMMARY: " ++ keyword ++ "\n"
        ++ "Generated on: " ++ headerStamp ++ "\n"
        ++ (if focus_areas ≠ [] then
              "Focus Areas: " ++ String.intercalate ", " focus_areas ++ "\n\n"
            else ""))
      ++ body

/-! ### The per-keyword loop body and the whole multi-keyword run
(advanced_search_agent.py lines 59-189). -/

/-- The external world of one loop iteration: the browser agent as a function from
the task string to its result object (line 90), the two `datetime.now()` readings
around `agent.run()` as integer clock values (lines 89/91), and the later
`datetime.now()` readings used for the filename, the JSON timestamp and the text
header. -/
structure StepEnv where
  agentRun : String → ResultObj
  startTime : Int
  endTime : Int
  fileStamp : DateTime
  jsonStamp : String
  headerStamp : String

/-- A value of the `results[keyword]` record built at lines 184-187. -/
structure KeywordOutcome where
  output_file : String
  duration_seconds : Int
deriving DecidableEq

/-- Lines 62-187, one iteration of `for keyword in keywords`: build the task, run
the agent, extract the text (an uncaught exception there aborts the whole call,
hence `Except`), optionally transform, then write one file.  Returns the
`results[keyword]` record and the (path, content) write performed.  The filename
formula is the same in the json and the else branch (lines 144/162), so it is
computed once here.  `os.makedirs(..., exist_ok=True)` (line 136) only touches
directory state and is not modelled. -/
def processKeyword (llm : String → String) (o : Options) (env : StepEnv)
    (keyword : String) : Except Unit (KeywordOutcome × (String × FileContent)) :=
  let task := buildTaskAdv o keyword
  let result := env.agentRun task
  let duration := env.endTime - env.startTime
  match extractResultText result with
  | Except.error e => Except.error e
  | Except.ok extracted =>
    let step := transformStep o.blog_style o.language llm extracted
    let result_text := step.text
    let output_file := joinPath o.output_dir (deriveFilenameAdv keyword env.fileStamp o.output_format)
    if o.output_format = "json" then
      Except.ok (⟨output_file, duration⟩,
        (output_file, FileContent.jsonDoc (jsonData keyword env.jsonStamp result_text
          o.depth o.focus_areas duration o.language o.blog_style)))
    else
      Except.ok (⟨output_file, duration⟩,
        (output_file, FileContent.textDoc (renderTextFile o.output_format o.blog_style
          keyword env.headerStamp o.focus_areas result_text)))

/-- The loop of lines 62-187: each keyword is processed in order (`env i` is the
world of iteration `i`), accumulating the `results` dict and the list of file
writes. -/
def runKeywords (llm : String → String) (o : Options) (env : Nat → StepEnv) :
    List String → Nat → List (String × KeywordOutcome) → List (String × FileContent) →
    Except Unit (List (String × KeywordOutcome) × List (String × FileContent))
  | [], _, results, files => Except.ok (results, files)
  | keyword :: rest, i, results, files =>
    match processKeyword llm o (env i) keyword with
    | Except.error e => Except.error e
    | Except.ok (outcome, write) =>
      runKeywords llm o env rest (i + 1) (dictInsert results keyword outcome)
        (files ++ [write])

/-- Lines 21-189, `AdvancedSearchAgent.search_and_summarize` on a keyword list:
merge the options, loop over the keywords, return the results dict (and the file
writes the run performed). -/
def search_and_summarize (llm : String → String) (optsIn : OptionsIn)
    (keywords : List String) (env : Nat → StepEnv) :
    Except Unit (List (String × KeywordOutcome) × List (String × FileContent)) :=
  runKeywords llm (mergeOptions optsIn) env keywords 0 [] []

/-! ### Helper lemmas. -/

/-- The clamped depth level of line 65 always lies in the inclusive range [1,3]. -/
theorem clampDepth_mem (d : Int) : 1 ≤ clampDepth d ∧ clampDepth d ≤ 3 :=
  ⟨le_min (le_max_right d 1) (by norm_num), min_le_right _ 3⟩

theorem pad2_length (n : Nat) : (pad2 n).length = 2 := rfl

theorem pad4_length (n : Nat) : (pad4 n).length = 4 := rfl

theorem data_append (a b : String) : (a ++ b).data = a.data ++ b.data := by
  cases a; cases b; rfl

theorem string_append_left_cancel (s a b : String) (h : s ++ a = s ++ b) : a = b := by
  have hd := congrArg String.data h
  rw [data_append, data_append] at hd
  exact congrArg String.mk (List.append_cancel_left hd)

theorem joinPath_inj (dir a b : String) (h : joinPath dir a = joinPath dir b) : a = b := by
  unfold joinPath at h
  split at h
  · exact h
  · split at h
    · exact string_append_left_cancel dir a b h
    · exact string_append_left_cancel (dir ++ "/") a b h

/-- Reading a key right after writing it returns the written value. -/
theorem fsRead_dictInsert {α : Type} (d : List (String × α)) (k : String) (v : α) :
    fsRead (dictInsert d k v) k = some v := by
  induction d with
  | nil => simp [dictInsert, fsRead]
  | cons p rest ih =>
    rw [dictInsert]
    by_cases h : (p.1 == k) = true
    · rw [if_pos h]
      simp [fsRead]
    · rw [if_neg h]
      simp only [fsRead] at ih ⊢
      rw [List.find?_cons_of_neg _ (by simpa using h)]
      exact ih

/-- A successful loop iteration's duration is the clock difference around the agent
call, and its file path is the joined derived filename. -/
theorem processKeyword_fields (llm : String → String) (o : Options) (env : StepEnv)
    (k : String) (out : KeywordOutcome) (w : String × FileContent)
    (h : processKeyword llm o env k = Except.ok (out, w)) :
    out.duration_seconds = env.endTime - env.startTime ∧
    w.1 = joinPath o.output_dir (deriveFilenameAdv k env.fileStamp o.output_format) := by
  simp only [processKeyword] at h
  split at h
  · exact absurd h (by simp)
  · split at h <;>
    · simp only [Except.ok.injEq, Prod.mk.injEq] at h
      obtain ⟨h1, h2⟩ := h
      exact ⟨by rw [← h1], by rw [← h2]⟩

/-- Filenames derived for the keywords "A" and "B" differ whatever the timestamps
and formats: their first characters differ. -/
theorem deriveFilenameAdv_A_ne_B (s1 s2 : DateTime) (f1 f2 : String) :
    deriveFilenameAdv "A" s1 f1 ≠ deriveFilenameAdv "B" s2 f2 := by
  intro h
  have e1 : (deriveFilenameAdv "A" s1 f1).data
      = 'A' :: '_' :: ((timestampCompact s1).data ++ '.' :: (extForFormat f1).data) := by
    simp [deriveFilenameAdv, show sanitizeKeyword "A" = "A" from rfl, data_append,
      show ("A" : String).data = ['A'] from rfl, show ("_" : String).data = ['_'] from rfl,
      show ("." : String).data = ['.'] from rfl]
  have e2 : (deriveFilenameAdv "B" s2 f2).data
      = 'B' :: '_' :: ((timestampCompact s2).data ++ '.' :: (extForFormat f2).data) := by
    simp [deriveFilenameAdv, show sanitizeKeyword "B" = "B" from rfl, data_append,
      show ("B" : String).data = ['B'] from rfl, show ("_" : String).data = ['_'] from rfl,
      show ("." : String).data = ['.'] from rfl]
  have hd := congrArg String.data h
  rw [e1, e2] at hd
  injection hd with h1 _
  exact absurd h1 (by decide)

/-! ### The claims. -/

/-- C1: the result-text extraction step returns the value of `.text` when the object
exposes `.text`; the content of the last element of its message list when the object
exposes only a message list with elements; and the fixed fallback string
"Could not extract text from search results." when the object exposes neither and
raises on access. -/
theorem extract_text_shapes (r : ResultObj) (t c : String)
    (ms : List AgentMessage) (m : AgentMessage) :
    (r.text = Access.val t → extractResultText r = Except.ok t) ∧
    (r.text = Access.absent → r.strConv = Access.absent → r.messages = Access.val ms →
      ms.getLast? = some m → m.content = Access.val c →
      extractResultText r = Except.ok c) ∧
    (r.text = Access.absent → r.strConv = Access.absent → r.messages = Access.raises →
      extractResultText r = Except.ok fallbackText) := by
  refine ⟨fun h1 => ?_, fun h1 h2 h3 h4 h5 => ?_, fun h1 h2 h3 => ?_⟩ <;>
    simp [extractResultText, *]

/-- Concrete instances of the three shapes of `extract_text_shapes`: a `.text`
carrier, a messages-only object, and an object raising on every probe of the
guarded branch. -/
theorem extract_text_shapes_witness :
    extractResultText ⟨Access.val "T", Access.absent, Access.absent⟩ = Except.ok "T" ∧
    extractResultText ⟨Access.absent, Access.absent, Access.val [⟨Access.val "C"⟩]⟩
      = Except.ok "C" ∧
    extractResultText ⟨Access.absent, Access.absent, Access.raises⟩ = Except.ok fallbackText :=
  ⟨(extract_text_shapes ⟨Access.val "T", Access.absent, Access.absent⟩ "T" "C"
      [] ⟨Access.val "C"⟩).1 rfl,
   (extract_text_shapes ⟨Access.absent, Access.absent, Access.val [⟨Access.val "C"⟩]⟩ "T" "C"
      [⟨Access.val "C"⟩] ⟨Access.val "C"⟩).2.1 rfl rfl rfl rfl rfl,
   (extract_text_shapes ⟨Access.absent, Access.absent, Access.raises⟩ "T" "C"
      [] ⟨Access.val "C"⟩).2.2 rfl rfl rfl⟩

/-- The claim that extraction never raises fails: a result object whose `.text`
access raises a non-AttributeError exception is outside the `try` block, and the
exception propagates to the caller instead of being replaced by the fallback. -/
theorem extract_raises_counterexample :
    extractResultText ⟨Access.raises, Access.absent, Access.absent⟩ = Except.error () := rfl

/-- C2 (amended): extraction propagates an exception exactly when the `.text` access
raises, or `.text` is absent and the string conversion raises; every exception in the
guarded message-list branch is caught and replaced by the fixed fallback string, so
extraction never raises once the `.text` and `str` probes are safe. -/
theorem extract_guard_scope (r : ResultObj) :
    extractResultText r = Except.error () ↔
      (r.text = Access.raises ∨ (r.text = Access.absent ∧ r.strConv = Access.raises)) := by
  cases hr : r.text <;> cases hs : r.strConv <;> simp [extractResultText, hr, hs]

/-- The claim that the configuration resolver clamps the depth stored in the options
record fails: with caller depth 7 the merged record keeps depth 7, outside [1,3]. -/
theorem merged_depth_unclamped_counterexample :
    (mergeOptions { emptyOptions with depth := some 7 }).depth = 7 ∧
    ¬((mergeOptions { emptyOptions with depth := some 7 }).depth ≤ 3) := by decide

/-- C3 (amended): the resolver produces a fully-populated record (caller value where
supplied, documented default otherwise); the depth level subsequently used to build
the task description is the record's depth clamped to the inclusive range [1,3],
while the record's own depth field keeps the caller-supplied value unclamped. -/
theorem depth_clamp_for_task (o : OptionsIn) :
    1 ≤ clampDepth (mergeOptions o).depth ∧ clampDepth (mergeOptions o).depth ≤ 3 ∧
    (mergeOptions o).depth = o.depth.getD 2 ∧
    (mergeOptions o).output_format = o.output_format.getD "markdown" ∧
    (mergeOptions o).output_dir = o.output_dir.getD "." ∧
    (mergeOptions o).max_results = o.max_results.getD 10 ∧
    (mergeOptions o).focus_areas = o.focus_areas.getD [] ∧
    (mergeOptions o).language = o.language.getD "english" ∧
    (mergeOptions o).blog_style = o.blog_style.getD false :=
  ⟨(clampDepth_mem _).1, (clampDepth_mem _).2, rfl, rfl, rfl, rfl, rfl, rfl, rfl⟩

/-- The claim that both variants map depth 3 to "exhaustively" fails: the
single-keyword variant's builder maps every depth at least 2, depth 3 included,
to "thoroughly". -/
theorem simple_depth3_counterexample :
    simple_depth_desc 3 = "thoroughly" ∧ simple_depth_desc 3 ≠ "exhaustively" := by decide

/-- C4 (amended): the multi-keyword variant substitutes the adverb mapped from the
clamped depth by 1 to "briefly", 2 to "thoroughly", 3 to "exhaustively" (the lookup
always hits one of the three keys); the single-keyword variant substitutes
"thoroughly" for every depth at least 2 and "briefly" below 2, with no
"exhaustively" case. -/
theorem depth_adverb_mapping (o : Options) (d : Int) (keyword : String) :
    depth_desc 1 = some "briefly" ∧ depth_desc 2 = some "thoroughly" ∧
    depth_desc 3 = some "exhaustively" ∧
    (∃ adv, depth_desc (clampDepth o.depth) = some adv ∧
      buildTaskAdv o keyword =
        "Search " ++ adv ++ " for information about '" ++ keyword
          ++ "'. Find detailed facts, comparisons, and recent developments."
          ++ " Create a comprehensive summary with key points organized by subtopics."
          ++ " Include up to " ++ toString o.max_results ++ " most relevant findings."
          ++ focusStr o.focus_areas) ∧
    (2 ≤ d → simple_depth_desc d = "thoroughly") ∧
    (d < 2 → simple_depth_desc d = "briefly") := by
  refine ⟨rfl, rfl, rfl, ?_, fun h => ?_, fun h => ?_⟩
  · have h3 : clampDepth o.depth = 1 ∨ clampDepth o.depth = 2 ∨ clampDepth o.depth = 3 := by
      have := clampDepth_mem o.depth
      omega
    rcases h3 with h | h | h
    · exact ⟨"briefly", by rw [h]; rfl, by simp [buildTaskAdv, depth_desc, h]⟩
    · exact ⟨"thoroughly", by rw [h]; rfl, by simp [buildTaskAdv, depth_desc, h]⟩
    · exact ⟨"exhaustively", by rw [h]; rfl, by simp [buildTaskAdv, depth_desc, h]⟩
  · unfold simple_depth_desc
    rw [if_pos h]
  · unfold simple_depth_desc
    rw [if_neg (by omega)]

/-- Concrete instances of both depth branches of `depth_adverb_mapping`. -/
theorem depth_adverb_mapping_witness :
    simple_depth_desc 3 = "thoroughly" ∧ simple_depth_desc 1 = "briefly" :=
  ⟨(depth_adverb_mapping default_options 3 "q").2.2.2.2.1 (by norm_num),
   (depth_adverb_mapping default_options 1 "q").2.2.2.2.2 (by norm_num)⟩

/-- C9: the task-description builder is a pure function of the keyword and the
depth, max-results and focus-areas options it reads: two records agreeing on those
fields (whatever their language, output or blog-style settings) yield the identical
instruction string, so identical (keyword, options) inputs always yield identical
strings across runs. -/
theorem task_builder_deterministic (keyword : String) (o1 o2 : Options)
    (hd : o1.depth = o2.depth) (hm : o1.max_results = o2.max_results)
    (hf : o1.focus_areas = o2.focus_areas) :
    buildTaskAdv o1 keyword = buildTaskAdv o2 keyword := by
  simp [buildTaskAdv, hd, hm, hf]

/-- Two concrete records differing only in fields the builder does not read give
the identical task string. -/
theorem task_builder_deterministic_witness :
    buildTaskAdv ⟨1, "json", "out", 5, ["x"], "french", true⟩ "k"
      = buildTaskAdv ⟨1, "markdown", ".", 5, ["x"], "english", false⟩ "k" :=
  task_builder_deterministic "k" _ _ rfl rfl rfl

/-- C5: the LLM transformation step fires (exactly one completion call is logged)
iff the blog-style flag is set or the requested language, lowercased, is not
"english"; when neither holds, no call is made and the working text handed to the
output writer is exactly the extracted result text, unchanged. -/
theorem transform_invocation_iff (blog_style : Bool) (language : String)
    (llm : String → String) (result_text : String) :
    ((transformStep blog_style language llm result_text).llmCalls ≠ [] ↔
      (blog_style = true ∨ strLower language ≠ "english")) ∧
    ((transformStep blog_style language llm result_text).llmCalls = [] →
      (transformStep blog_style language llm result_text).text = result_text) := by
  cases blog_style <;> by_cases hl : strLower language = "english" <;>
    simp [transformStep, transformNeeded, hl]

/-- For the default flags (no blog style, English) the step of
`transform_invocation_iff` makes no call and passes the text through. -/
theorem transform_invocation_iff_witness :
    (transformStep false "english" (fun _ => "R") "orig").llmCalls = [] ∧
    (transformStep false "english" (fun _ => "R") "orig").text = "orig" :=
  ⟨by rfl, (transform_invocation_iff false "english" (fun _ => "R") "orig").2 (by rfl)⟩

/-- C6: with no filename given, the derived filename is the keyword with every
space, forward slash and backslash replaced by an underscore, then an underscore, a
15-character YYYYMMDD_HHMMSS timestamp token, and the extension determined by the
output format: .md for markdown, .json for json, .txt for the text format (the
single-keyword variant, which has no format option, derives the same .md shape). -/
theorem filename_derivation (keyword : String) (stamp : DateTime) :
    deriveFilenameAdv keyword stamp "markdown"
        = sanitizeKeyword keyword ++ "_" ++ timestampCompact stamp ++ ".md" ∧
    deriveFilenameAdv keyword stamp "json"
        = sanitizeKeyword keyword ++ "_" ++ timestampCompact stamp ++ ".json" ∧
    deriveFilenameAdv keyword stamp "txt"
        = sanitizeKeyword keyword ++ "_" ++ timestampCompact stamp ++ ".txt" ∧
    deriveFilenameSimple keyword stamp
        = sanitizeKeyword keyword ++ "_" ++ timestampCompact stamp ++ ".md" ∧
    (timestampCompact stamp).length = 15 ∧
    (sanitizeKeyword keyword).data = keyword.data.map sanitizeChar ∧
    sanitizeChar ' ' = '_' ∧ sanitizeChar '/' = '_' ∧ sanitizeChar '\\' = '_' ∧
    (∀ c, c ≠ ' ' → c ≠ '/' → c ≠ '\\' → sanitizeChar c = c) ∧
    (∀ c ∈ (sanitizeKeyword keyword).data, c ≠ ' ' ∧ c ≠ '/' ∧ c ≠ '\\') := by
  refine ⟨?_, ?_, ?_, rfl, ?_, rfl, rfl, rfl, rfl, fun c h1 h2 h3 => ?_, fun c hc => ?_⟩
  · simp [deriveFilenameAdv, extForFormat, String.append_assoc,
      show ("." ++ "md" : String) = ".md" from rfl]
  · simp [deriveFilenameAdv, extForFormat, String.append_assoc,
      show ("." ++ "json" : String) = ".json" from rfl]
  · simp [deriveFilenameAdv, extForFormat, String.append_assoc,
      show ("." ++ "txt" : String) = ".txt" from rfl]
  · simp [timestampCompact, String.length_append, pad2_length, pad4_length,
      show ("_" : String).length = 1 from rfl]
  · simp [sanitizeChar, h1, h2, h3]
  · have hc2 : c ∈ keyword.data.map sanitizeChar := hc
    obtain ⟨a, -, rfl⟩ := List.mem_map.mp hc2
    unfold sanitizeChar
    split
    · exact ⟨by decide, by decide, by decide⟩
    · rename_i h
      push_neg at h
      exact h

/-- Concrete instances of `filename_derivation`: an unaffected character passes
through the sanitizer, and the json filename decomposes as claimed. -/
theorem filename_derivation_witness :
    sanitizeChar 'x' = 'x' ∧
    deriveFilenameAdv "a b" ⟨2026, 1, 2, 3, 4, 5⟩ "json"
      = sanitizeKeyword "a b" ++ "_" ++ timestampCompact ⟨2026, 1, 2, 3, 4, 5⟩ ++ ".json" := by
  have h := filename_derivation "a b" ⟨2026, 1, 2, 3, 4, 5⟩
  exact ⟨h.2.2.2.2.2.2.2.2.2.1 'x' (by decide) (by decide) (by decide), h.2.1⟩

/-- C7: writing the JSON document to a path and reading the path back returns the
document, whose keyword field is the original keyword, whose summary field is the
written summary text, and whose metadata.depth field is the depth input, exactly. -/
theorem json_roundtrip_fields (fs : List (String × FileContent))
    (path keyword isoStamp summary : String) (depth : Int) (focus : List String)
    (duration : Int) (language : String) (blog : Bool) :
    fsRead (dictInsert fs path (FileContent.jsonDoc
        (jsonData keyword isoStamp summary depth focus duration language blog))) path
      = some (FileContent.jsonDoc
        (jsonData keyword isoStamp summary depth focus duration language blog)) ∧
    jGetField (jsonData keyword isoStamp summary depth focus duration language blog) "keyword"
      = some (JVal.jstr keyword) ∧
    jGetField (jsonData keyword isoStamp summary depth focus duration language blog) "summary"
      = some (JVal.jstr summary) ∧
    (jGetField (jsonData keyword isoStamp summary depth focus duration language blog)
        "metadata").bind (fun m => jGetField m "depth")
      = some (JVal.jnum depth) :=
  ⟨fsRead_dictInsert fs path _, rfl, rfl, rfl⟩

/-- C10: whenever a loop iteration of the multi-keyword variant writes a JSON
document, the metadata.depth field of that document is the merged caller-supplied
depth value verbatim (the caller's value when supplied, else the default 2) -- not
the clamped depth level used to build the task description. -/
theorem json_metadata_depth_verbatim (llm : String → String) (optsIn : OptionsIn)
    (env : StepEnv) (keyword : String) (out : KeywordOutcome) (p : String) (doc : JVal)
    (hfmt : (mergeOptions optsIn).output_format = "json")
    (hrun : processKeyword llm (mergeOptions optsIn) env keyword
      = Except.ok (out, (p, FileContent.jsonDoc doc))) :
    (jGetField doc "metadata").bind (fun m => jGetField m "depth")
      = some (JVal.jnum (optsIn.depth.getD 2)) := by
  simp only [processKeyword] at hrun
  split at hrun
  · exact absurd hrun (by simp)
  · rw [if_pos hfmt] at hrun
    simp only [Except.ok.injEq, Prod.mk.injEq, FileContent.jsonDoc.injEq] at hrun
    obtain ⟨-, -, h3⟩ := hrun
    rw [← h3]
    rfl

/-- The caller options of the concrete C10 run: out-of-range depth 7, JSON output. -/
def jsonDemoOptions : OptionsIn := { emptyOptions with depth := some 7, output_format := some "json" }

/-- The concrete iteration world of the C10 run. -/
def jsonDemoEnv : StepEnv :=
  ⟨fun _ => ⟨Access.val "S", Access.absent, Access.absent⟩, 0, 0,
    ⟨2026, 1, 1, 0, 0, 0⟩, "iso", "hdr"⟩

/-- In a concrete JSON run with caller depth 7, the written metadata.depth is 7
verbatim, although the clamped depth level is 3. -/
theorem json_metadata_depth_verbatim_witness :
    (jGetField (jsonData "k" "iso" "S" 7 [] 0 "english" false) "metadata").bind
        (fun m => jGetField m "depth") = some (JVal.jnum 7) ∧
    clampDepth 7 = 3 :=
  ⟨json_metadata_depth_verbatim (fun _ => "L") jsonDemoOptions jsonDemoEnv "k"
      ⟨"./k_20260101_000000.json", 0⟩ "./k_20260101_000000.json"
      (jsonData "k" "iso" "S" 7 [] 0 "english" false) rfl rfl,
   by decide⟩

/-- C8: a run of the multi-keyword variant on the two distinct keywords ["A", "B"]
that completes (with a monotone clock) returns a result mapping with exactly the two
entries "A" and "B" in order, each carrying a non-negative duration in seconds, and
performs exactly two file writes with distinct paths. -/
theorem two_keyword_run (llm : String → String) (optsIn : OptionsIn) (env : Nat → StepEnv)
    (results : List (String × KeywordOutcome)) (files : List (String × FileContent))
    (hclock : ∀ i, (env i).startTime ≤ (env i).endTime)
    (hrun : search_and_summarize llm optsIn ["A", "B"] env = Except.ok (results, files)) :
    results.map Prod.fst = ["A", "B"] ∧
    (∀ r ∈ results, 0 ≤ r.2.duration_seconds) ∧
    ∃ pA cA pB cB, files = [(pA, cA), (pB, cB)] ∧ pA ≠ pB := by
  simp only [search_and_summarize, runKeywords] at hrun
  cases hA : processKeyword llm (mergeOptions optsIn) (env 0) "A" with
  | error e => rw [hA] at hrun; simp at hrun
  | ok vA =>
    obtain ⟨oA, wA⟩ := vA
    rw [hA] at hrun
    cases hB : processKeyword llm (mergeOptions optsIn) (env 1) "B" with
    | error e => rw [hB] at hrun; simp at hrun
    | ok vB =>
      obtain ⟨oB, wB⟩ := vB
      rw [hB] at hrun
      simp only [Except.ok.injEq, Prod.mk.injEq] at hrun
      obtain ⟨hres, hfiles⟩ := hrun
      have hres2 : results = [("A", oA), ("B", oB)] := by
        rw [← hres]; rfl
      have hfiles2 : files = [wA, wB] := by
        rw [← hfiles]; rfl
      obtain ⟨hdA, hpA⟩ := processKeyword_fields _ _ _ _ _ _ hA
      obtain ⟨hdB, hpB⟩ := processKeyword_fields _ _ _ _ _ _ hB
      refine ⟨by rw [hres2]; rfl, ?_, ?_⟩
      · intro r hr
        rw [hres2] at hr
        simp only [List.mem_cons, List.not_mem_nil, or_false] at hr
        rcases hr with rfl | rfl
        · rw [hdA]
          have := hclock 0; omega
        · rw [hdB]
          have := hclock 1; omega
      · refine ⟨wA.1, wA.2, wB.1, wB.2, by rw [hfiles2], ?_⟩
        rw [hpA, hpB]
        intro h
        exact deriveFilenameAdv_A_ne_B (env 0).fileStamp (env 1).fileStamp
          (mergeOptions optsIn).output_format (mergeOptions optsIn).output_format
          (joinPath_inj _ _ _ h)

/-- The concrete iteration worlds of the C8 run: the agent returns a `.text`
carrier, the clock advances by one second per keyword. -/
def demoEnv : Nat → StepEnv :=
  fun _ => ⟨fun _ => ⟨Access.val "S", Access.absent, Access.absent⟩, 0, 1,
    ⟨2026, 1, 1, 0, 0, 0⟩, "iso", "hdr"⟩

/-- The results dict of the concrete C8 run. -/
def demoResults : List (String × KeywordOutcome) :=
  [("A", ⟨"./A_20260101_000000.md", 1⟩), ("B", ⟨"./B_20260101_000000.md", 1⟩)]

/-- The file writes of the concrete C8 run. -/
def demoFiles : List (String × FileContent) :=
  [("./A_20260101_000000.md", FileContent.textDoc "# Summary: A\n\n*Generated on: hdr*\n\nS"),
   ("./B_20260101_000000.md", FileContent.textDoc "# Summary: B\n\n*Generated on: hdr*\n\nS")]

/-- A concrete completed two-keyword run satisfying `two_keyword_run`. -/
theorem two_keyword_run_witness :
    demoResults.map Prod.fst = ["A", "B"] ∧
    (∀ r ∈ demoResults, 0 ≤ r.2.duration_seconds) ∧
    ∃ pA cA pB cB, demoFiles = [(pA, cA), (pB, cB)] ∧ pA ≠ pB :=
  two_keyword_run (fun _ => "L") emptyOptions demoEnv demoResults demoFiles
    (fun _ => (by decide : (0 : Int) ≤ 1)) (by rfl)
